import Mathlib

/-!
Shallow embedding of the Skyhawk capture-and-risk pipeline
(`backend/capture_service` and `backend/ml_service/utils/risk_scorer.py`).

Numeric values (Python floats) are modelled as rationals; Python dicts with
optional keys are modelled as structures of `Option` fields, with `Option.getD`
standing for `dict.get(key, default)`.
-/

namespace Skyhawk

/-! ## Python string helpers

`str.lower()` (ASCII range, which covers every string the scorer compares)
and the `in` substring test used by the scorer. -/

/-- ASCII lower-casing of one character, as `str.lower()` acts on the
species names that occur in the scorer. -/
def lowerChar (c : Char) : Char :=
  if 'A' ≤ c ∧ c ≤ 'Z' then Char.ofNat (c.toNat + 32) else c

/-- `s.lower()` over the characters of `s`. -/
def lowerStr (s : String) : String :=
  String.mk (s.data.map lowerChar)

/-- Does the second character list start with the first one? -/
def startsWithL : List Char → List Char → Bool
  | [], _ => true
  | _ :: _, [] => false
  | a :: as, b :: bs => a = b && startsWithL as bs

/-- Does the second character list contain the first one contiguously? -/
def containsL (pat : List Char) : List Char → Bool
  | [] => startsWithL pat []
  | b :: bs => startsWithL pat (b :: bs) || containsL pat bs

/-- Python `pat in s` on strings: substring containment. -/
def strContainsSub (s pat : String) : Bool :=
  containsL pat.data s.data

/-! ## Python `round(x, 4)`

Python `round` rounds to the nearest multiple of `10^-4`, ties to even. -/

/-- Round a rational to the nearest integer, ties to the even integer. -/
def rhe (q : ℚ) : ℤ :=
  if q - ⌊q⌋ < 1/2 then ⌊q⌋
  else if 1/2 < q - ⌊q⌋ then ⌊q⌋ + 1
  else if ⌊q⌋ % 2 = 0 then ⌊q⌋ else ⌊q⌋ + 1

/-- `round(x, 4)`: round to four decimal places, ties to even. -/
def pyRound4 (x : ℚ) : ℚ := (rhe (x * 10000) : ℚ) / 10000

/-! ## RiskScorer (backend/ml_service/utils/risk_scorer.py)

A YOLO detection dict; only the keys the scorer reads are modelled, each
optional because the source accesses them with `dict.get`. -/

structure Detection where
  species : Option String
  confidence : Option ℚ
  is_primary_reservoir : Option Bool
  deriving DecidableEq, Repr

/-- `RiskScorer.SPECIES_RISK.get(species, 0.05)`. -/
def SPECIES_RISK (s : String) : ℚ :=
  if s = "Mastomys natalensis" then 1
  else if s = "Mastomys coucha" then 7/10
  else if s = "Rattus rattus" then 3/10
  else if s = "Rattus norvegicus" then 1/5
  else if s = "Other rodent" then 1/10
  else if s = "Unknown" then 1/20
  else 1/20

/-- `RiskScorer.COUNT_MULTIPLIERS.get(count, 0.5)`. -/
def countMultipliers (n : ℕ) : ℚ :=
  if n = 1 then 1/2
  else if n = 2 then 7/10
  else if n = 3 then 17/20
  else if n = 4 then 19/20
  else 1/2

/-- The count multiplier as computed in `score_detections`:
`0.95 if count >= 4 else COUNT_MULTIPLIERS.get(count, 0.5)`. -/
def cmult (n : ℕ) : ℚ :=
  if 4 ≤ n then 19/20 else countMultipliers n

/-- `d.get("confidence", 0)`. -/
def dconf (d : Detection) : ℚ := d.confidence.getD 0

/-- The validity filter `d.get("confidence", 0) > 0.3`. -/
def isValidDet (d : Detection) : Bool := 3/10 < dconf d

/-- `det.get("species", "Unknown")`. -/
def detSpecies (d : Detection) : String := d.species.getD "Unknown"

/-- One detection's contribution `species_weight * confidence`, with the
source's defaults (`species` defaults to `"Unknown"`, `confidence` to 0.5). -/
def detScoreTerm (d : Detection) : ℚ :=
  SPECIES_RISK (detSpecies d) * d.confidence.getD (1/2)

/-- The Mastomys test:
`"mastomys" in d.get("species", "").lower() or d.get("is_primary_reservoir", False)`. -/
def isMastomys (d : Detection) : Bool :=
  strContainsSub (lowerStr (d.species.getD "")) "mastomys" ||
    d.is_primary_reservoir.getD false

/-- The high-confidence test `d.get("confidence", 0) > 0.8`. -/
def isHighConf (d : Detection) : Bool := 4/5 < dconf d

/-- `RiskScorer.score_detections`. -/
def score_detections (detections : List Detection) : ℚ :=
  if detections.isEmpty then 0
  else
    let valid := detections.filter isValidDet
    if valid.isEmpty then 0
    else
      let species_scores := valid.map detScoreTerm
      let avg_species_risk := species_scores.sum / (species_scores.length : ℚ)
      let count_mult := cmult valid.length
      let mastomys_bonus : ℚ := if valid.any isMastomys then 3/10 else 0
      let high_conf_count := (valid.filter isHighConf).length
      let confidence_bonus := min ((high_conf_count : ℚ) * (1/20)) (3/20)
      let base_risk := avg_species_risk * count_mult
      let final_risk := min (base_risk + mastomys_bonus + confidence_bonus) 1
      pyRound4 final_risk

/-- `RiskScorer._score_to_level`. -/
def score_to_level (score : ℚ) : String :=
  if 4/5 ≤ score then "CRITICAL"
  else if 3/5 ≤ score then "HIGH"
  else if 2/5 ≤ score then "MODERATE"
  else if 1/5 ≤ score then "LOW"
  else "MINIMAL"

/-- `RiskScorer._get_recommendation`. -/
def get_recommendation (score : ℚ) (mastomys_count : ℕ) : String :=
  if 4/5 ≤ score ∨ 3 ≤ mastomys_count then
    "IMMEDIATE ACTION: Deploy rodent control team. Alert local health authorities. Consider community screening."
  else if 3/5 ≤ score ∨ 2 ≤ mastomys_count then
    "HIGH PRIORITY: Schedule rodent control intervention. Notify health surveillance unit."
  else if 2/5 ≤ score ∨ 1 ≤ mastomys_count then
    "MODERATE: Increase monitoring frequency. Prepare control measures."
  else if 1/5 ≤ score then
    "LOW: Continue routine surveillance. Document findings."
  else "MINIMAL: Standard monitoring protocols."

/-- The `endemic_regions` table of `score_with_context`, in Python dict
insertion order (the loop iterates in this order and stops at the first
substring match). -/
def endemicRegions : List (String × ℚ) :=
  [("edo", 3/20), ("ondo", 3/20), ("ebonyi", 3/25), ("bauchi", 1/10),
   ("plateau", 1/10), ("taraba", 2/25), ("nasarawa", 2/25),
   ("benue", 7/100), ("kogi", 3/50)]

/-- The geographic bonus loop of `score_with_context`.  Python `if region:`
is false for both `None` and the empty string. -/
def geoBonus (region : Option String) : ℚ :=
  match region with
  | none => 0
  | some r =>
    if r = "" then 0
    else
      match (endemicRegions.filter fun p => strContainsSub (lowerStr r) p.1) with
      | [] => 0
      | p :: _ => p.2

/-- The seasonal bonus of `score_with_context`.  When `season` is `None` or
empty (Python falsy), the bonus is derived from the current calendar month
(`datetime.now().month`), passed here explicitly as `month`. -/
def seasonalBonus (season : Option String) (month : ℕ) : ℚ :=
  match season with
  | some s =>
    if s = "" then (if month = 11 ∨ month = 12 ∨ month = 1 ∨ month = 2 ∨ month = 3 then 2/25 else 0)
    else if lowerStr s = "dry" ∨ lowerStr s = "harmattan" then 1/10
    else if lowerStr s = "transition" then 1/20
    else 0
  | none => if month = 11 ∨ month = 12 ∨ month = 1 ∨ month = 2 ∨ month = 3 then 2/25 else 0

/-- The dict returned by `RiskScorer.score_with_context`, flattened into a
structure (nested-dict keys become fields). -/
structure RiskAssessment where
  risk_score : ℚ
  risk_level : String
  detection_risk : ℚ
  geographic_risk : ℚ
  seasonal_risk : ℚ
  total_detections : ℕ
  mastomys_count : ℕ
  high_confidence_detections : ℕ
  region : Option String
  endemic_area : Bool
  recommendation : String
  deriving Repr

/-- `RiskScorer.score_with_context`.  `latitude` and `longitude` are accepted
but never read by the source body; `month` stands for the ambient
`datetime.now().month` consulted when `season` is falsy. -/
def score_with_context (detections : List Detection)
    (latitude longitude : Option ℚ) (region season : Option String)
    (month : ℕ) : RiskAssessment :=
  let base_score := score_detections detections
  let geo_bonus := geoBonus region
  let seasonal_bonus := seasonalBonus season month
  let final_score := min (base_score + geo_bonus + seasonal_bonus) 1
  let mastomys_count := (detections.filter fun d => d.is_primary_reservoir.getD false).length
  { risk_score := pyRound4 final_score
    risk_level := score_to_level final_score
    detection_risk := pyRound4 base_score
    geographic_risk := pyRound4 geo_bonus
    seasonal_risk := pyRound4 seasonal_bonus
    total_detections := detections.length
    mastomys_count := mastomys_count
    high_confidence_detections := (detections.filter fun d => (7/10 : ℚ) < dconf d).length
    region := region
    endemic_area := decide (0 < geo_bonus)
    recommendation := get_recommendation final_score mastomys_count }

/-! ## Capture service (backend/capture_service)

Frames are modelled as grids of BGR pixel intensities (rationals). -/

/-- A video frame: rows of BGR triples. -/
structure Frame where
  pixels : List (List (ℚ × ℚ × ℚ))
  deriving DecidableEq, Repr

/-- A single-channel intensity image. -/
abbrev GrayFrame := List (List ℚ)

/-- `cv2.cvtColor(frame, cv2.COLOR_BGR2GRAY)` (standard BT.601 weights,
without the uint8 quantisation). -/
def cvtGray (f : Frame) : GrayFrame :=
  f.pixels.map (List.map fun p => 299/1000 * p.2.2 + 587/1000 * p.2.1 + 114/1000 * p.1)

/-- `cv2.absdiff` of two intensity images, elementwise. -/
def absdiffG (a b : GrayFrame) : GrayFrame :=
  List.zipWith (List.zipWith fun x y => |x - y|) a b

/-- `cv2.threshold(diff, 30, 255, cv2.THRESH_BINARY)`: pixels above 30 become
255, the rest 0. -/
def threshG (d : GrayFrame) : GrayFrame :=
  d.map (List.map fun x => if 30 < x then (255 : ℚ) else 0)

/-- `np.sum(thresh)`. -/
def sumG (g : GrayFrame) : ℚ := (g.map List.sum).sum

/-- `thresh.shape[0] * thresh.shape[1]`: rows times columns (columns read
from the first row, as a numpy shape is uniform). -/
def pixelCount (g : GrayFrame) : ℕ := g.length * (g.headD []).length

/-- The mutable attributes of `MotionDetector` (`motion_filter.py`). -/
structure MotionState where
  threshold : ℚ
  prev_frame : Option GrayFrame
  deriving DecidableEq, Repr

/-- An injected failure point inside `MotionDetector.detect_motion`: the
grayscale conversion or the differencing/thresholding stage raises. -/
inductive MotionErr
  | grayFail
  | diffFail
  deriving DecidableEq, Repr

/-- `MotionDetector.detect_motion`.  `err` injects an exception at the
corresponding source line; the surrounding `try/except` returns `True`
("Default to True for safety") and, the assignment to `self.prev_frame`
being unreached, leaves the state unchanged.  Returns
`(return value, new state)`. -/
def detect_motion (st : MotionState) (frame : Frame) (err : Option MotionErr) :
    Bool × MotionState :=
  if err = some MotionErr.grayFail then (true, st)
  else
    let gray := cvtGray frame
    match st.prev_frame with
    | none => (true, { st with prev_frame := some gray })
    | some prev =>
      if err = some MotionErr.diffFail then (true, st)
      else
        let diff := absdiffG prev gray
        let thresh := threshG diff
        let motion_pixels := sumG thresh / (pixelCount thresh * 255 : ℚ)
        (decide (st.threshold < motion_pixels), { st with prev_frame := some gray })

/-- `MotionDetector.reset`. -/
def motionReset (st : MotionState) : MotionState :=
  { st with prev_frame := none }

/-- The location dict of a configured stream. -/
structure Location where
  lat : ℚ
  lon : ℚ
  deriving DecidableEq, Repr

/-- The per-stream configuration an `RTSPWatcher` is built from. -/
structure WatcherConfig where
  stream_name : String
  location : Location
  deriving DecidableEq, Repr

/-- The mutable attributes of `RTSPWatcher` touched by its watch loop. -/
structure WatcherState where
  connected : Bool
  last_frame : Option Frame
  frame_count : ℕ
  deriving DecidableEq, Repr

/-- The dict an `RTSPWatcher` puts on the frame queue. -/
structure FrameData where
  stream_name : String
  location : Location
  frame : Frame
  timestamp : String
  frame_count : ℕ
  deriving DecidableEq, Repr

/-- Outcome of `self.cap.read()`. -/
inductive ReadResult
  | ok (f : Frame)
  | fail
  deriving DecidableEq, Repr

/-- One iteration of `RTSPWatcher._watch_loop` in the connected state
(`self.cap` set).  The frame queue is the list `q` with capacity `qmax`
(`Queue(maxsize=100)` in `app.py`); `put(frame_data, block=False)` appends
when there is room and raises `queue.Full` otherwise — the exception is
caught by the loop's generic handler, which logs and sleeps 2 seconds.
Returns `(new state, new queue, seconds slept)`. -/
def watchStep (cfg : WatcherConfig) (st : WatcherState) (q : List FrameData)
    (qmax : ℕ) (read : ReadResult) (ts : String) (interval : ℚ) :
    WatcherState × List FrameData × ℚ :=
  match read with
  | ReadResult.fail =>
    ({ st with connected := false }, q, 0)
  | ReadResult.ok f =>
    let st' : WatcherState :=
      { st with last_frame := some f, frame_count := st.frame_count + 1 }
    let frame_data : FrameData :=
      { stream_name := cfg.stream_name, location := cfg.location, frame := f,
        timestamp := ts, frame_count := st'.frame_count }
    if q.length < qmax then (st', q ++ [frame_data], interval)
    else (st', q, 2)

/-- The YOLO API response dict, keys optional (`result.get(...)`). -/
structure InferenceResult where
  avg_confidence : Option ℚ
  detections : Option (List Detection)
  deriving DecidableEq, Repr

/-- Outcome of `await self.inference_client.predict(frame)` as observed by
the consumer loop: a returned value, or an exception reaching the loop's
`except` handler. -/
inductive InfOutcome
  | ret (r : Option InferenceResult)
  | raised
  deriving DecidableEq, Repr

/-- The HTTP interaction underlying one `InferenceClient.predict` call. -/
inductive HttpOutcome
  | ok (status : ℕ) (body : InferenceResult)
  | timeout
  | connError
  deriving DecidableEq, Repr

/-- A Python call result: a returned value or a raised exception,
identified by the exception class name. -/
inductive PyResult (α : Type)
  | ret (a : α)
  | exn (name : String)
  deriving DecidableEq, Repr

/-- `InferenceClient.predict` (`inference_client.py`).  On a non-200 status
it returns `None`.  When any exception is raised inside the `try` block
(timeout included), Python evaluates the first handler clause
`except asyncio.TimeoutError:` — but `inference_client.py` never imports
`asyncio`, so evaluating that clause raises `NameError`, which propagates to
the caller (later `except` clauses of the same `try` are not consulted). -/
def predict (o : HttpOutcome) : PyResult (Option InferenceResult) :=
  match o with
  | HttpOutcome.ok status body =>
    if status ≠ 200 then PyResult.ret none else PyResult.ret (some body)
  | HttpOutcome.timeout => PyResult.exn "NameError"
  | HttpOutcome.connError => PyResult.exn "NameError"

/-- The arguments of a `self.pusher.push_detection(...)` call made by the
consumer loop. -/
structure PushCall where
  frame_data : FrameData
  result : InferenceResult
  risk_score : ℚ
  deriving DecidableEq, Repr

/-- One iteration of `SkyhawkCaptureService._process_frames` for a dequeued
frame (`app.py`): motion check with the service's single `MotionDetector`,
then inference; a falsy result (`None` or empty) skips the frame, an
exception is swallowed by the loop's handler.  On success the risk score
passed to the pusher is `result.get("avg_confidence", 0.5)` (the source
comment calls this a placeholder).  Returns the updated motion state and
the push call, if any. -/
def processFrame (md : MotionState) (fd : FrameData) (inf : InfOutcome)
    (merr : Option MotionErr) : MotionState × Option PushCall :=
  let m := detect_motion md fd.frame merr
  if !m.1 then (m.2, none)
  else
    match inf with
    | InfOutcome.raised => (m.2, none)
    | InfOutcome.ret none => (m.2, none)
    | InfOutcome.ret (some r) =>
      (m.2, some { frame_data := fd, result := r,
                   risk_score := r.avg_confidence.getD (1/2) })

/-- The consumer loop over a sequence of dequeued frames, threading the one
shared motion state of the service through every frame regardless of which
stream produced it. -/
def processQueue (md : MotionState)
    (frames : List (FrameData × InfOutcome × Option MotionErr)) :
    MotionState × List PushCall :=
  match frames with
  | [] => (md, [])
  | (fd, inf, merr) :: rest =>
    let step := processFrame md fd inf merr
    let restOut := processQueue step.1 rest
    (restOut.1, (step.2.toList) ++ restOut.2)

/-- The mutable attributes of `DetectionPusher` (`detection_pusher.py`):
connection credentials and the (never-assigned) `db_conn`.  There is no
buffer of any kind among them. -/
structure PusherState where
  db_url : String
  supabase_url : String
  supabase_key : String
  db_conn : Option Unit
  deriving DecidableEq, Repr

/-- The record dict built inside `push_detection`, with the two
`json.dumps` blobs flattened into fields. -/
structure DetectionRecord where
  latitude : ℚ
  longitude : ℚ
  detection_timestamp : String
  detection_count : ℕ
  source : String
  env_stream : String
  env_frame_count : ℕ
  risk_score : ℚ
  confidence : ℚ
  detections : List Detection
  deriving DecidableEq, Repr

/-- Result of one `DetectionPusher.push_detection` call: the returned
boolean, the pusher state afterwards, the list of rows actually written to
storage, and the record that was built. -/
structure PushResult where
  ok : Bool
  state : PusherState
  writes : List DetectionRecord
  record : DetectionRecord
  deriving DecidableEq, Repr

/-- `DetectionPusher.push_detection`.  The source builds the record and
logs it; the PostgreSQL insert and the Supabase broadcast are `TODO`
comments, so no write is performed, no state is mutated, and the call
returns `True`. -/
def pushDetection (st : PusherState) (fd : FrameData) (r : InferenceResult)
    (risk : ℚ) : PushResult :=
  let record : DetectionRecord :=
    { latitude := fd.location.lat
      longitude := fd.location.lon
      detection_timestamp := fd.timestamp
      detection_count := (r.detections.getD []).length
      source := "rtsp_auto:" ++ fd.stream_name
      env_stream := fd.stream_name
      env_frame_count := fd.frame_count
      risk_score := risk
      confidence := r.avg_confidence.getD 0
      detections := r.detections.getD [] }
  { ok := true, state := st, writes := [], record := record }

/-- The fields of `SkyhawkCaptureService.__init__` relevant to the pipeline:
note the single `MotionDetector` and the single queue for all watchers. -/
structure ServiceState where
  watchers : List WatcherConfig
  frame_queue_max : ℕ
  motion_detector : MotionState
  deriving DecidableEq, Repr

/-- `CaptureConfig.MOTION_THRESHOLD` default. -/
def MOTION_THRESHOLD : ℚ := 1/10

/-- `SkyhawkCaptureService.__init__` + `initialize`: one watcher per stream,
one queue of capacity 100, one motion detector for the whole service. -/
def serviceInit (streams : List WatcherConfig) : ServiceState :=
  { watchers := streams
    frame_queue_max := 100
    motion_detector := { threshold := MOTION_THRESHOLD, prev_frame := none } }

/-! ## Abstract score shape used by the RiskScorer proofs -/

/-- The value `min(base_risk + mastomys_bonus + confidence_bonus, 1.0)` of
`score_detections` as a function of the sum `S` of the valid detections'
terms, their number `n`, the high-confidence count `k` and the Mastomys
flag `p`. -/
def innerScore (S : ℚ) (n k : ℕ) (p : Bool) : ℚ :=
  min (S / (n : ℚ) * cmult n + (if p then 3/10 else 0) +
    min ((k : ℚ) * (1/20)) (3/20)) 1

/-! ## Concrete inputs used by counterexamples and witnesses -/

/-- One Mastomys natalensis detection with confidence 0.9. -/
def dMast09 : Detection :=
  { species := some "Mastomys natalensis", confidence := some (9/10),
    is_primary_reservoir := some false }

/-- One Mastomys natalensis detection with confidence 0.6. -/
def dMast06 : Detection :=
  { species := some "Mastomys natalensis", confidence := some (3/5),
    is_primary_reservoir := some false }

/-- One Mastomys natalensis detection with confidence 0.5. -/
def dMast05 : Detection :=
  { species := some "Mastomys natalensis", confidence := some (1/2),
    is_primary_reservoir := some false }

/-- One unrecognised-species detection with confidence 0.9. -/
def dUnknown09 : Detection :=
  { species := some "Unknown", confidence := some (9/10),
    is_primary_reservoir := some false }

/-- A 1×1 black frame. -/
def frame0 : Frame := { pixels := [[(0, 0, 0)]] }

/-- A fresh motion state at the default threshold. -/
def mdFresh : MotionState := { threshold := MOTION_THRESHOLD, prev_frame := none }

/-- Stream A's configuration. -/
def cfgA : WatcherConfig :=
  { stream_name := "A", location := { lat := 0, lon := 0 } }

/-- A frame-queue entry from stream A. -/
def fdA : FrameData :=
  { stream_name := "A", location := { lat := 0, lon := 0 }, frame := frame0,
    timestamp := "t0", frame_count := 1 }

/-- A frame-queue entry from stream B carrying the same pixels as `fdA`. -/
def fdB : FrameData :=
  { stream_name := "B", location := { lat := 1, lon := 1 }, frame := frame0,
    timestamp := "t1", frame_count := 1 }

/-- An inference result claiming average confidence 0.9 over one
unrecognised-species detection. -/
def rUnknown : InferenceResult :=
  { avg_confidence := some (9/10), detections := some [dUnknown09] }

/-- A pusher state with empty credentials. -/
def pusher0 : PusherState :=
  { db_url := "", supabase_url := "", supabase_key := "", db_conn := none }

/-! ## Theorems -/



/-! ## Helper lemmas -/

theorem rhe_ge_floor (q : ℚ) : ⌊q⌋ ≤ rhe q := by
  unfold rhe
  split_ifs <;> omega

theorem rhe_le_floor_add_one (q : ℚ) : rhe q ≤ ⌊q⌋ + 1 := by
  unfold rhe
  split_ifs <;> omega

theorem rhe_intCast (a : ℤ) : rhe (a : ℚ) = a := by
  unfold rhe
  have h : ⌊(a : ℚ)⌋ = a := Int.floor_intCast a
  rw [h]
  norm_num

theorem rhe_mono {x y : ℚ} (h : x ≤ y) : rhe x ≤ rhe y := by
  have hfg : ⌊x⌋ ≤ ⌊y⌋ := Int.floor_le_floor h
  rcases lt_or_eq_of_le hfg with hlt | heq
  · calc rhe x ≤ ⌊x⌋ + 1 := rhe_le_floor_add_one x
      _ ≤ ⌊y⌋ := by omega
      _ ≤ rhe y := rhe_ge_floor y
  · unfold rhe
    rw [← heq]
    have hr : x - ⌊x⌋ ≤ y - ⌊x⌋ := by linarith
    split_ifs <;> first | omega | linarith

theorem pyRound4_mono {x y : ℚ} (h : x ≤ y) : pyRound4 x ≤ pyRound4 y := by
  unfold pyRound4
  have h1 : rhe (x * 10000) ≤ rhe (y * 10000) := rhe_mono (by linarith)
  have h2 : ((rhe (x * 10000) : ℚ)) ≤ (rhe (y * 10000) : ℚ) := by exact_mod_cast h1
  linarith

theorem pyRound4_eqc (x : ℚ) (a : ℤ) (h : x * 10000 = (a : ℚ)) :
    pyRound4 x = (a : ℚ) / 10000 := by
  unfold pyRound4
  rw [h, rhe_intCast]

theorem pyRound4_zero : pyRound4 0 = 0 := by
  rw [pyRound4_eqc 0 0 (by norm_num)]
  norm_num

theorem pyRound4_one : pyRound4 1 = 1 := by
  rw [pyRound4_eqc 1 10000 (by norm_num)]
  norm_num

theorem pyRound4_nonneg {x : ℚ} (h : 0 ≤ x) : 0 ≤ pyRound4 x := by
  calc (0 : ℚ) = pyRound4 0 := pyRound4_zero.symm
    _ ≤ pyRound4 x := pyRound4_mono h

theorem pyRound4_le_one {x : ℚ} (h : x ≤ 1) : pyRound4 x ≤ 1 := by
  calc pyRound4 x ≤ pyRound4 1 := pyRound4_mono h
    _ = 1 := pyRound4_one

theorem mast_nat_contains :
    strContainsSub (lowerStr "Mastomys natalensis") "mastomys" = true := by decide

/-- C7: one detection of the primary reservoir species (Mastomys natalensis) with
confidence 0.9 and no context scores 0.80 (detection risk 1.0 times 0.9 times 0.5
plus reservoir bonus 0.3 plus confidence bonus 0.05), and 0.80 maps to level
CRITICAL under the 0.8 threshold. -/
theorem C7_single_confident_reservoir_critical :
    score_detections [dMast09] = 4/5 ∧ score_to_level (4/5) = "CRITICAL" := by
  constructor
  · have h : score_detections [dMast09] = pyRound4 (4/5) := by
      norm_num [score_detections, isValidDet, dconf, dMast09, detScoreTerm, detSpecies,
        SPECIES_RISK, isMastomys, isHighConf, cmult, countMultipliers,
        mast_nat_contains, min_def]
    rw [h, pyRound4_eqc (4/5) 8000 (by norm_num)]
    norm_num
  · norm_num [score_to_level]



/-- C3: evidence for the code bug.  On a non-success HTTP status `predict`
returns `None` as claimed, but on a timeout (or any raised error) it raises
`NameError` to the caller instead of returning `None`, because
`inference_client.py` never imports `asyncio` and the first handler clause
`except asyncio.TimeoutError:` therefore fails to evaluate. -/
theorem C3_predict_raises_instead_of_none (body : InferenceResult) :
    predict HttpOutcome.timeout = PyResult.exn "NameError" ∧
    predict HttpOutcome.connError = PyResult.exn "NameError" ∧
    predict (HttpOutcome.ok 500 body) = PyResult.ret none ∧
    predict (HttpOutcome.ok 200 body) = PyResult.ret (some body) := by
  refine ⟨rfl, rfl, by norm_num [predict], by norm_num [predict]⟩

/-- C2: evidence for the code bug.  `push_detection` performs no storage write
at all (the insert is a TODO comment), so there is no retry, no backoff, and no
overflow buffer: every call returns `True`, leaves the pusher state unchanged,
and writes nothing. -/
theorem C2_push_no_retry_no_buffer_no_write (st : PusherState) (fd : FrameData) (r : InferenceResult) (risk : ℚ) :
    (pushDetection st fd r risk).ok = true ∧
    (pushDetection st fd r risk).state = st ∧
    (pushDetection st fd r risk).writes = [] :=
  ⟨rfl, rfl, rfl⟩

/-- C4 (amended): on a full frame queue the non-blocking `put` raises
`queue.Full`, the frame is dropped (queue unchanged) and the loop returns
without blocking, but no drop counter exists and the generic exception handler
sleeps 2 seconds instead of the sampling interval, so producer pacing does
change with queue fullness. -/
theorem C4_full_queue_drops_and_backs_off (cfg : WatcherConfig) (st : WatcherState) (q : List FrameData)
    (qmax : ℕ) (f : Frame) (ts : String) (interval : ℚ)
    (h : qmax ≤ q.length) :
    watchStep cfg st q qmax (ReadResult.ok f) ts interval =
      ({ st with last_frame := some f, frame_count := st.frame_count + 1 }, q, 2) := by
  simp only [watchStep]
  rw [if_neg (by omega)]

/-- Witness for C4 at a concrete full queue. -/
theorem C4_full_queue_drops_and_backs_off_witness :
    watchStep cfgA { connected := true, last_frame := none, frame_count := 0 }
        [fdA] 1 (ReadResult.ok frame0) "t1" 5 =
      ({ connected := true, last_frame := some frame0, frame_count := 1 }, [fdA], 2) :=
  C4_full_queue_drops_and_backs_off cfgA _ [fdA] 1 frame0 "t1" 5 (by norm_num)

/-- C4 counterexample: with a full queue the producer sleeps 2 seconds
instead of the configured 5-second interval, so producer throughput is not
unaffected by queue fullness (and the dropped frame increments no counter,
the watcher state having none). -/
theorem C4_drop_counter_throughput_cex :
    (watchStep cfgA { connected := true, last_frame := none, frame_count := 0 }
        [fdA] 1 (ReadResult.ok frame0) "t1" 5).2.2 = 2 ∧
    (watchStep cfgA { connected := true, last_frame := none, frame_count := 0 }
        [] 1 (ReadResult.ok frame0) "t1" 5).2.2 = 5 ∧
    (2 : ℚ) ≠ 5 ∧
    (watchStep cfgA { connected := true, last_frame := none, frame_count := 0 }
        [fdA] 1 (ReadResult.ok frame0) "t1" 5).2.1 = [fdA] := by
  refine ⟨by norm_num [watchStep], by norm_num [watchStep], by norm_num, by norm_num [watchStep]⟩

/-- C10: if an internal error is raised while `detect_motion` processes a
frame (during grayscale conversion, or during differencing when a previous
frame is retained), the call returns `True` (fail-open) and the retained
previous frame is left unchanged. -/
theorem C10_motion_fail_open (st : MotionState) (f : Frame) (e : Option MotionErr)
    (h : e = some MotionErr.grayFail ∨
      (e = some MotionErr.diffFail ∧ st.prev_frame.isSome)) :
    detect_motion st f e = (true, st) := by
  rcases h with h | ⟨h, hp⟩
  · unfold detect_motion
    rw [if_pos h]
  · obtain ⟨p, hp⟩ := Option.isSome_iff_exists.mp hp
    unfold detect_motion
    rw [if_neg (by simp [h]), hp]
    simp [h]

/-- Witness for C10 at a concrete failing conversion. -/
theorem C10_motion_fail_open_witness :
    detect_motion mdFresh frame0 (some MotionErr.grayFail) = (true, mdFresh) :=
  C10_motion_fail_open mdFresh frame0 (some MotionErr.grayFail) (Or.inl rfl)

/-- C1 (amended): for every dequeued frame whose inference call succeeds and
which passes the motion gate, the risk score the consumer loop passes to
`push_detection` is the inference result field `avg_confidence` with default
0.5 (the placeholder in `app.py`), not the RiskScorer aggregation of the
detections. -/
theorem C1_push_risk_is_placeholder_avg_conf (md : MotionState) (fd : FrameData) (r : InferenceResult)
    (merr : Option MotionErr) (pc : PushCall)
    (h : (processFrame md fd (InfOutcome.ret (some r)) merr).2 = some pc) :
    pc.risk_score = r.avg_confidence.getD (1/2) := by
  rcases hb : (detect_motion md fd.frame merr).1 with _ | _
  · simp [processFrame, hb] at h
  · simp [processFrame, hb] at h
    rw [← h]
    norm_num

/-- Witness for C1 at a concrete frame and inference result. -/
theorem C1_push_risk_is_placeholder_avg_conf_witness :
    ({ frame_data := fdA, result := rUnknown, risk_score := 9/10 } : PushCall).risk_score =
      rUnknown.avg_confidence.getD (1/2) :=
  C1_push_risk_is_placeholder_avg_conf mdFresh fdA rUnknown none _ rfl



theorem seasonal_indep (s : String) (hs : s ≠ "") (m1 m2 : ℕ) :
    seasonalBonus (some s) m1 = seasonalBonus (some s) m2 := by
  simp only [seasonalBonus]
  rw [if_neg hs, if_neg hs]

/-- C9 (amended): `score_with_context` is deterministic given its arguments
and the current calendar month; in particular, when a non-empty season string
is supplied the result does not depend on the clock month at all. -/
theorem C9_deterministic_given_clock_month (ds : List Detection) (lat lon : Option ℚ) (region : Option String)
    (s : String) (hs : s ≠ "") (m1 m2 : ℕ) :
    score_with_context ds lat lon region (some s) m1 =
      score_with_context ds lat lon region (some s) m2 := by
  unfold score_with_context
  rw [seasonal_indep s hs m1 m2]

/-- Witness for C9 at a concrete supplied season. -/
theorem C9_deterministic_given_clock_month_witness :
    score_with_context [] none none none (some "dry") 1 =
      score_with_context [] none none none (some "dry") 6 :=
  C9_deterministic_given_clock_month [] none none none "dry" (by decide) 1 6

theorem score_dets_nil : score_detections [] = 0 := by
  simp [score_detections]

/-- C9 counterexample: with season left unsupplied, the same arguments give
risk score 0.08 when the current month is November and 0 when it is June, so
the scorer does depend on the ambient clock. -/
theorem C9_clock_dependence_cex :
    (score_with_context [] none none none none 11).risk_score = 2/25 ∧
    (score_with_context [] none none none none 6).risk_score = 0 ∧
    ((2 : ℚ)/25) ≠ 0 := by
  refine ⟨?_, ?_, by norm_num⟩
  · have h : (score_with_context [] none none none none 11).risk_score = pyRound4 (2/25) := by
      norm_num [score_with_context, score_dets_nil, geoBonus, seasonalBonus, min_def]
    rw [h, pyRound4_eqc (2/25) 800 (by norm_num)]
    norm_num
  · have h : (score_with_context [] none none none none 6).risk_score = pyRound4 0 := by
      norm_num [score_with_context, score_dets_nil, geoBonus, seasonalBonus, min_def]
    rw [h, pyRound4_zero]

theorem unknown_no_mast :
    strContainsSub (lowerStr "Unknown") "mastomys" = false := by decide

theorem SPECIES_RISK_unknown : SPECIES_RISK "Unknown" = 1/20 := rfl

theorem dUnknown09_valid : isValidDet dUnknown09 = true := by
  norm_num [isValidDet, dconf, dUnknown09]

theorem dUnknown09_term : detScoreTerm dUnknown09 = 9/200 := by
  norm_num [detScoreTerm, dUnknown09, detSpecies, SPECIES_RISK_unknown]

theorem dUnknown09_mast : isMastomys dUnknown09 = false := by
  simp [isMastomys, dUnknown09, unknown_no_mast]

theorem dUnknown09_hc : isHighConf dUnknown09 = true := by
  norm_num [isHighConf, dconf, dUnknown09]

/-- C1 counterexample: the consumer loop pushes risk score 0.9 (the result
field `avg_confidence`) for a frame whose detections the RiskScorer
aggregation scores 0.0725. -/
theorem C1_risk_not_riskscorer_cex :
    ((processFrame mdFresh fdA (InfOutcome.ret (some rUnknown)) none).2.map
      PushCall.risk_score) = some (9/10) ∧
    score_detections (rUnknown.detections.getD []) = 29/400 ∧
    ((9 : ℚ)/10) ≠ 29/400 := by
  refine ⟨?_, ?_, by norm_num⟩
  · simp [processFrame, detect_motion, mdFresh, fdA, rUnknown]
  · have h : score_detections (rUnknown.detections.getD []) = pyRound4 (29/400) := by
      norm_num [rUnknown, score_detections, dUnknown09_valid, dUnknown09_term,
        dUnknown09_mast, dUnknown09_hc, cmult, countMultipliers, min_def]
    rw [h, pyRound4_eqc (29/400) 725 (by norm_num)]
    norm_num



theorem cvtGray_frame0 : cvtGray frame0 = [[0]] := by
  norm_num [cvtGray, frame0]

theorem gate_rejects_repeat :
    (detect_motion { threshold := MOTION_THRESHOLD, prev_frame := some (cvtGray frame0) }
      frame0 none).1 = false := by
  simp [detect_motion, cvtGray_frame0, absdiffG, threshG, sumG, pixelCount, MOTION_THRESHOLD]
  norm_num

/-- C5 counterexample: a watcher enqueues a frame identical to the one it
just read even though a motion gate holding that frame returns false; and in
the consumer, the single shared gate primed by stream A rejects the first
frame of stream B, while a fresh gate would pass it — the retained previous
frame is shared across streams. -/
theorem C5_no_producer_gate_shared_state_cex :
    (watchStep cfgA { connected := true, last_frame := some frame0, frame_count := 1 }
        [fdA] 100 (ReadResult.ok frame0) "t1" 5).2.1 =
      [fdA, { stream_name := "A", location := { lat := 0, lon := 0 }, frame := frame0,
              timestamp := "t1", frame_count := 2 }] ∧
    (detect_motion { threshold := MOTION_THRESHOLD, prev_frame := some (cvtGray frame0) }
      frame0 none).1 = false ∧
    ((processQueue mdFresh
        [(fdA, InfOutcome.ret (some rUnknown), none),
         (fdB, InfOutcome.ret (some rUnknown), none)]).2.map
      fun pc => pc.frame_data.stream_name) = ["A"] ∧
    (processFrame mdFresh fdB (InfOutcome.ret (some rUnknown)) none).2.isSome = true := by
  refine ⟨by norm_num [watchStep, fdA, cfgA], gate_rejects_repeat, ?_, ?_⟩
  · simp [processQueue, processFrame, detect_motion, mdFresh, fdA, fdB, rUnknown,
      cvtGray_frame0]
    norm_num [absdiffG, threshG, sumG, pixelCount, MOTION_THRESHOLD, cvtGray_frame0]
  · simp [processFrame, detect_motion, mdFresh, fdB]

/-- C5 (amended): watchers enqueue every successfully read frame without any
motion filtering; motion gating happens in the consumer loop after dequeue,
using the single service-owned MotionDetector whose state update depends only
on the pixels of the dequeued frame, not on which stream produced it. -/
theorem C5_consumer_gate_single_shared :
    (∀ (cfg : WatcherConfig) (st : WatcherState) (q : List FrameData) (qmax : ℕ)
      (f : Frame) (ts : String) (interval : ℚ), q.length < qmax →
      (watchStep cfg st q qmax (ReadResult.ok f) ts interval).2.1 =
        q ++ [{ stream_name := cfg.stream_name, location := cfg.location, frame := f,
                timestamp := ts, frame_count := st.frame_count + 1 }]) ∧
    (∀ (md : MotionState) (fd1 fd2 : FrameData) (inf1 inf2 : InfOutcome),
      fd1.frame = fd2.frame →
      (processFrame md fd1 inf1 none).1 = (processFrame md fd2 inf2 none).1) := by
  constructor
  · intro cfg st q qmax f ts interval h
    simp only [watchStep]
    rw [if_pos h]
  · intro md fd1 fd2 inf1 inf2 hf
    have hd : detect_motion md fd1.frame none = detect_motion md fd2.frame none := by
      rw [hf]
    rcases hb : (detect_motion md fd2.frame none).1 with _ | _ <;>
      · cases inf1 <;> cases inf2 <;>
          simp [processFrame, hd, hb] <;>
          first
            | rfl
            | (rename_i r1 r2; cases r1 <;> cases r2 <;> simp)
            | (rename_i r1; cases r1 <;> simp)

/-- Witness for C5 at concrete frames of two different streams. -/
theorem C5_consumer_gate_single_shared_witness :
    (watchStep cfgA { connected := true, last_frame := none, frame_count := 0 }
        [] 100 (ReadResult.ok frame0) "t0" 5).2.1 =
      [] ++ [{ stream_name := cfgA.stream_name, location := cfgA.location, frame := frame0,
               timestamp := "t0", frame_count := 0 + 1 }] ∧
    (processFrame mdFresh fdA (InfOutcome.ret none) none).1 =
      (processFrame mdFresh fdB (InfOutcome.ret (some rUnknown)) none).1 :=
  ⟨C5_consumer_gate_single_shared.1 cfgA _ [] 100 frame0 "t0" 5 (by norm_num),
   C5_consumer_gate_single_shared.2 mdFresh fdA fdB _ _ rfl⟩



theorem SPECIES_RISK_nonneg (s : String) : 0 ≤ SPECIES_RISK s := by
  unfold SPECIES_RISK
  split_ifs <;> norm_num

theorem SPECIES_RISK_le_one (s : String) : SPECIES_RISK s ≤ 1 := by
  unfold SPECIES_RISK
  split_ifs <;> norm_num

theorem cmult_nonneg (n : ℕ) : 0 ≤ cmult n := by
  unfold cmult countMultipliers
  split_ifs <;> norm_num

theorem cmult_le_one (n : ℕ) : cmult n ≤ 1 := by
  unfold cmult countMultipliers
  split_ifs <;> norm_num

theorem valid_conf {d : Detection} (h : isValidDet d = true) :
    ∃ cc, d.confidence = some cc ∧ 3/10 < cc := by
  unfold isValidDet dconf at h
  cases hc : d.confidence with
  | none =>
    rw [hc] at h
    simp at h
    norm_num at h
  | some c =>
    rw [hc] at h
    simp at h
    exact ⟨c, rfl, h⟩

theorem term_nonneg {d : Detection} (h : isValidDet d = true) :
    0 ≤ detScoreTerm d := by
  obtain ⟨c, hc, h3⟩ := valid_conf h
  unfold detScoreTerm
  rw [hc]
  simp only [Option.getD_some]
  exact mul_nonneg (SPECIES_RISK_nonneg _) (by linarith)

theorem sum_terms_nonneg (V : List Detection)
    (hv : ∀ d ∈ V, isValidDet d = true) :
    0 ≤ (V.map detScoreTerm).sum := by
  apply List.sum_nonneg
  intro x hx
  obtain ⟨d, hd, rfl⟩ := List.mem_map.mp hx
  exact term_nonneg (hv d hd)

theorem score_detections_eq (ds : List Detection) :
    score_detections ds =
      if ds.isEmpty then 0 else
      if (ds.filter isValidDet).isEmpty then 0 else
      pyRound4 (innerScore (((ds.filter isValidDet).map detScoreTerm).sum)
        (ds.filter isValidDet).length
        ((ds.filter isValidDet).filter isHighConf).length
        ((ds.filter isValidDet).any isMastomys)) := by
  simp only [score_detections, innerScore, List.length_map]

theorem innerScore_le_one (S : ℚ) (n k : ℕ) (p : Bool) : innerScore S n k p ≤ 1 := by
  unfold innerScore
  exact min_le_right _ _

theorem innerScore_nonneg (S : ℚ) (n k : ℕ) (p : Bool) (hS : 0 ≤ S) :
    0 ≤ innerScore S n k p := by
  unfold innerScore
  apply le_min _ zero_le_one
  have hb : (0:ℚ) ≤ S / (n : ℚ) * cmult n :=
    mul_nonneg (div_nonneg hS (by positivity)) (cmult_nonneg _)
  have hmb : (0:ℚ) ≤ if p then (3:ℚ)/10 else 0 := by
    split_ifs <;> norm_num
  have hcb : (0:ℚ) ≤ min (((k:ℕ) : ℚ) * (1/20)) (3/20) := by
    apply le_min _ (by norm_num)
    positivity
  linarith

theorem score_nonneg (ds : List Detection) : 0 ≤ score_detections ds := by
  rw [score_detections_eq]
  split_ifs with h1 h2
  · norm_num
  · norm_num
  · exact pyRound4_nonneg (innerScore_nonneg _ _ _ _
      (sum_terms_nonneg _ (fun d hd => (List.mem_filter.mp hd).2)))

theorem score_le_one (ds : List Detection) : score_detections ds ≤ 1 := by
  rw [score_detections_eq]
  split_ifs with h1 h2
  · norm_num
  · norm_num
  · exact pyRound4_le_one (innerScore_le_one _ _ _ _)

theorem geoBonus_nonneg (region : Option String) : 0 ≤ geoBonus region := by
  cases region with
  | none => simp [geoBonus]
  | some r =>
    simp only [geoBonus]
    split_ifs with h
    · norm_num
    · cases hm : endemicRegions.filter (fun p => strContainsSub (lowerStr r) p.1) with
      | nil => simp [hm]
      | cons p l =>
        simp only [hm]
        have hp : p ∈ endemicRegions := by
          apply List.mem_of_mem_filter (p := fun p => strContainsSub (lowerStr r) p.1)
          rw [hm]
          exact List.mem_cons_self p l
        simp only [endemicRegions, List.mem_cons, List.not_mem_nil, or_false] at hp
        rcases hp with h|h|h|h|h|h|h|h|h <;> rw [h] <;> norm_num

theorem seasonalBonus_nonneg (season : Option String) (m : ℕ) :
    0 ≤ seasonalBonus season m := by
  cases season with
  | none =>
    simp only [seasonalBonus]
    split_ifs <;> norm_num
  | some s =>
    simp only [seasonalBonus]
    split_ifs <;> norm_num

/-- C8: for every list of detections and any optional geographic and
seasonal context, both `score_detections` and the risk score returned by
`score_with_context` lie between 0 and 1 inclusive. -/
theorem C8_risk_score_bounded (ds : List Detection) (lat lon : Option ℚ)
    (region season : Option String) (month : ℕ) :
    0 ≤ score_detections ds ∧ score_detections ds ≤ 1 ∧
    0 ≤ (score_with_context ds lat lon region season month).risk_score ∧
    (score_with_context ds lat lon region season month).risk_score ≤ 1 := by
  refine ⟨score_nonneg ds, score_le_one ds, ?_, ?_⟩
  · simp only [score_with_context]
    apply pyRound4_nonneg
    apply le_min _ zero_le_one
    have h1 := score_nonneg ds
    have h2 := geoBonus_nonneg region
    have h3 := seasonalBonus_nonneg season month
    linarith
  · simp only [score_with_context]
    exact pyRound4_le_one (min_le_right _ _)



theorem mast_coucha_contains :
    strContainsSub (lowerStr "Mastomys coucha") "mastomys" = true := by decide

theorem term_le_one {d : Detection} (hv : isValidDet d = true) (hb : dconf d ≤ 1) :
    detScoreTerm d ≤ 1 := by
  obtain ⟨c, hc, h3⟩ := valid_conf hv
  unfold dconf at hb
  rw [hc] at hb
  simp only [Option.getD_some] at hb
  unfold detScoreTerm
  rw [hc]
  simp only [Option.getD_some]
  exact mul_le_one₀ (SPECIES_RISK_le_one _) (by linarith) hb

theorem term_le_hc_false {d : Detection} (hv : isValidDet d = true)
    (hhc : isHighConf d = false) : detScoreTerm d ≤ 4/5 := by
  obtain ⟨c, hc, h3⟩ := valid_conf hv
  unfold isHighConf dconf at hhc
  rw [hc] at hhc
  simp only [Option.getD_some] at hhc
  have h45 : c ≤ 4/5 := by
    by_contra hlt
    simp at hhc
    push_neg at hlt
    linarith [hhc]
  unfold detScoreTerm
  rw [hc]
  simp only [Option.getD_some]
  calc SPECIES_RISK (detSpecies d) * c ≤ 1 * c :=
        mul_le_mul_of_nonneg_right (SPECIES_RISK_le_one _) (by linarith)
    _ = c := one_mul c
    _ ≤ 4/5 := h45

theorem SPECIES_RISK_le_of_not_mast (s : String)
    (h : strContainsSub (lowerStr s) "mastomys" = false) :
    SPECIES_RISK s ≤ 3/10 := by
  unfold SPECIES_RISK
  split_ifs with h1 h2 <;> try norm_num
  · rw [h1] at h
    exact absurd h (by decide)
  · rw [h2] at h
    exact absurd h (by decide)

theorem term_le_nomast {d : Detection} (hv : isValidDet d = true)
    (hb : dconf d ≤ 1) (hm : isMastomys d = false) :
    detScoreTerm d ≤ 3/10 := by
  obtain ⟨c, hc, h3⟩ := valid_conf hv
  unfold dconf at hb
  rw [hc] at hb
  simp only [Option.getD_some] at hb
  unfold isMastomys at hm
  simp only [Bool.or_eq_false_iff] at hm
  have hW : SPECIES_RISK (detSpecies d) ≤ 3/10 := by
    cases hs : d.species with
    | none =>
      unfold detSpecies
      rw [hs]
      simp only [Option.getD_none]
      rw [SPECIES_RISK_unknown]
      norm_num
    | some sp =>
      unfold detSpecies
      rw [hs]
      simp only [Option.getD_some]
      apply SPECIES_RISK_le_of_not_mast
      have := hm.1
      rw [hs] at this
      simpa using this
  unfold detScoreTerm
  rw [hc]
  simp only [Option.getD_some]
  calc SPECIES_RISK (detSpecies d) * c ≤ SPECIES_RISK (detSpecies d) * 1 :=
        mul_le_mul_of_nonneg_left hb (SPECIES_RISK_nonneg _)
    _ = SPECIES_RISK (detSpecies d) := mul_one _
    _ ≤ 3/10 := hW

theorem sum_hc_bound (V : List Detection)
    (hv : ∀ d ∈ V, isValidDet d = true) (hb : ∀ d ∈ V, dconf d ≤ 1) :
    (V.map detScoreTerm).sum ≤
      4/5 * (V.length : ℚ) + ((V.filter isHighConf).length : ℚ) * (1/5) := by
  induction V with
  | nil => simp
  | cons d V ih =>
    have hvd := hv d (List.mem_cons_self d V)
    have hbd := hb d (List.mem_cons_self d V)
    have ih' := ih (fun x hx => hv x (List.mem_cons_of_mem d hx))
      (fun x hx => hb x (List.mem_cons_of_mem d hx))
    simp only [List.map_cons, List.sum_cons, List.filter_cons, List.length_cons]
    by_cases hhc : isHighConf d = true
    · rw [if_pos hhc]
      have ht : detScoreTerm d ≤ 1 := term_le_one hvd hbd
      simp only [List.length_cons]
      push_cast
      linarith
    · rw [if_neg hhc]
      have ht : detScoreTerm d ≤ 4/5 :=
        term_le_hc_false hvd (Bool.not_eq_true _ ▸ hhc)
      push_cast
      linarith

theorem sum_le_len (V : List Detection)
    (hv : ∀ d ∈ V, isValidDet d = true) (hb : ∀ d ∈ V, dconf d ≤ 1) :
    (V.map detScoreTerm).sum ≤ (V.length : ℚ) := by
  have h := sum_hc_bound V hv hb
  have hk : ((V.filter isHighConf).length : ℚ) ≤ (V.length : ℚ) := by
    exact_mod_cast List.length_filter_le _ _
  linarith

theorem sum_nomast (V : List Detection) (hmast : V.any isMastomys = false)
    (hv : ∀ d ∈ V, isValidDet d = true) (hb : ∀ d ∈ V, dconf d ≤ 1) :
    (V.map detScoreTerm).sum ≤ 3/10 * (V.length : ℚ) := by
  induction V with
  | nil => simp
  | cons d V ih =>
    simp only [List.any_cons, Bool.or_eq_false_iff] at hmast
    have ih' := ih hmast.2 (fun x hx => hv x (List.mem_cons_of_mem d hx))
      (fun x hx => hb x (List.mem_cons_of_mem d hx))
    have ht : detScoreTerm d ≤ 3/10 :=
      term_le_nomast (hv d (List.mem_cons_self d V)) (hb d (List.mem_cons_self d V)) hmast.1
    simp only [List.map_cons, List.sum_cons, List.length_cons]
    push_cast
    linarith



theorem innerScore_one (S : ℚ) (k : ℕ) (p : Bool) :
    innerScore S 1 k p =
      min (S * (1/2) + (if p then (3:ℚ)/10 else 0) + min ((k:ℚ) * (1/20)) (3/20)) 1 := by
  unfold innerScore
  rw [show ((1:ℕ):ℚ) = 1 by norm_num, div_one,
    show cmult 1 = 1/2 from by norm_num [cmult, countMultipliers]]

theorem innerScore_two (S : ℚ) (k : ℕ) (p : Bool) :
    innerScore S 2 k p =
      min (S / 2 * (7/10) + (if p then (3:ℚ)/10 else 0) + min ((k:ℚ) * (1/20)) (3/20)) 1 := by
  unfold innerScore
  rw [show ((2:ℕ):ℚ) = 2 by norm_num,
    show cmult 2 = 7/10 from by norm_num [cmult, countMultipliers]]

theorem innerScore_three (S : ℚ) (k : ℕ) (p : Bool) :
    innerScore S 3 k p =
      min (S / 3 * (17/20) + (if p then (3:ℚ)/10 else 0) + min ((k:ℚ) * (1/20)) (3/20)) 1 := by
  unfold innerScore
  rw [show ((3:ℕ):ℚ) = 3 by norm_num,
    show cmult 3 = 17/20 from by norm_num [cmult, countMultipliers]]

theorem innerScore_four (S : ℚ) (k : ℕ) (p : Bool) :
    innerScore S 4 k p =
      min (S / 4 * (19/20) + (if p then (3:ℚ)/10 else 0) + min ((k:ℚ) * (1/20)) (3/20)) 1 := by
  unfold innerScore
  rw [show ((4:ℕ):ℚ) = 4 by norm_num,
    show cmult 4 = 19/20 from by norm_num [cmult, countMultipliers]]

theorem inner_mono (S c : ℚ) (n k k' : ℕ) (p : Bool)
    (hn1 : 1 ≤ n) (hn3 : n ≤ 3)
    (hS0 : 0 ≤ S) (hSn : S ≤ (n : ℚ))
    (hSk : S ≤ 4/5 * (n:ℚ) + (k:ℚ) * (1/5))
    (hp : p = false → S ≤ 3/10 * (n:ℚ))
    (hc : 1/2 ≤ c)
    (hk : k ≤ k') :
    innerScore S n k p ≤ innerScore (S + c) (n + 1) k' true := by
  have hkk : (k:ℚ) ≤ (k':ℚ) := by exact_mod_cast hk
  have hmb : (if p then (3:ℚ)/10 else 0) ≤ 3/10 := by split_ifs <;> norm_num
  have hmb0 : (0:ℚ) ≤ (if p then (3:ℚ)/10 else 0) := by split_ifs <;> norm_num
  have hcb : min ((k:ℚ) * (1/20)) (3/20) ≤ min ((k':ℚ) * (1/20)) (3/20) :=
    min_le_min (by linarith) le_rfl
  have hcb0 : (0:ℚ) ≤ min ((k:ℚ) * (1/20)) (3/20) := le_min (by positivity) (by norm_num)
  have hcb15 : min ((k:ℚ) * (1/20)) (3/20) ≤ 3/20 := min_le_right _ _
  interval_cases n
  · -- n = 1
    rw [innerScore_one, show (1 + 1 : ℕ) = 2 from rfl, innerScore_two]
    simp only [eq_self_iff_true, if_true]
    apply min_le_min _ le_rfl
    have e2 : (S + c) / 2 * (7/10) = 7/20 * S + 7/20 * c := by ring
    have hSn' : S ≤ 1 := by exact_mod_cast hSn
    linarith
  · -- n = 2
    rw [innerScore_two, show (2 + 1 : ℕ) = 3 from rfl, innerScore_three]
    simp only [eq_self_iff_true, if_true]
    apply min_le_min _ le_rfl
    have e1 : S / 2 * (7/10) = 7/20 * S := by ring
    have e2 : (S + c) / 3 * (17/20) = 17/60 * S + 17/60 * c := by ring
    have hSn' : S ≤ 2 := by exact_mod_cast hSn
    linarith
  · -- n = 3
    rw [innerScore_three, show (3 + 1 : ℕ) = 4 from rfl, innerScore_four]
    simp only [eq_self_iff_true, if_true]
    have e1 : S / 3 * (17/20) = 17/60 * S := by ring
    have e2 : (S + c) / 4 * (19/20) = 19/80 * S + 19/80 * c := by ring
    by_cases hbase : 11 * S ≤ 57 * c
    · apply min_le_min _ le_rfl
      linarith
    · -- the base decreases, but the capped score is already 1 on both sides
      push_neg at hbase
      have hS59 : 57/22 < S := by linarith
      have hk1 : 1 ≤ k := by
        by_contra hk0
        push_neg at hk0
        interval_cases k
        · norm_num at hSk
          linarith
      have hk1' : (1:ℚ) ≤ (k':ℚ) := by
        have : 1 ≤ k' := le_trans hk1 hk
        exact_mod_cast this
      have hcb1' : (1:ℚ)/20 ≤ min ((k':ℚ) * (1/20)) (3/20) :=
        le_min (by linarith) (by norm_num)
      have hR : 1 ≤ (S + c) / 4 * (19/20) + (3:ℚ)/10 + min ((k':ℚ) * (1/20)) (3/20) := by
        have hsum : (19:ℚ)/80 * (57/22) + 19/80 * (1/2) ≤ 19/80 * S + 19/80 * c := by
          apply add_le_add
          · exact mul_le_mul_of_nonneg_left (le_of_lt hS59) (by norm_num)
          · exact mul_le_mul_of_nonneg_left hc (by norm_num)
        rw [e2]
        have h19 : (19:ℚ)/80 * (57/22) + 19/80 * (1/2) = 323/440 := by norm_num
        linarith
      rw [min_eq_right hR]
      exact min_le_right _ _

theorem score_eq_of_valid_ne_nil (ds : List Detection)
    (h : ds.filter isValidDet ≠ []) :
    score_detections ds =
      pyRound4 (innerScore (((ds.filter isValidDet).map detScoreTerm).sum)
        (ds.filter isValidDet).length
        ((ds.filter isValidDet).filter isHighConf).length
        ((ds.filter isValidDet).any isMastomys)) := by
  have hds : ds ≠ [] := by
    intro e
    rw [e] at h
    simp at h
  rw [score_detections_eq, if_neg (by simpa using hds), if_neg (by simpa using h)]

/-- C6 (amended): provided every detection has confidence at most 1 and at
most 3 of them pass the validity filter (confidence above 0.3), adding one
more detection of the primary reservoir species Mastomys natalensis with
confidence at least 0.5 to a non-empty detection set never decreases the risk
score. -/
theorem C6_bounded_monotonicity (ds : List Detection) (d : Detection) (c : ℚ)
    (hne : ds ≠ [])
    (hconf : ∀ x ∈ ds, dconf x ≤ 1)
    (hn3 : (ds.filter isValidDet).length ≤ 3)
    (hs : d.species = some "Mastomys natalensis")
    (hcd : d.confidence = some c)
    (hc : 1/2 ≤ c) :
    score_detections ds ≤ score_detections (ds ++ [d]) := by
  have hvd : isValidDet d = true := by
    unfold isValidDet dconf
    rw [hcd]
    simp only [Option.getD_some, decide_eq_true_eq]
    linarith
  have hterm : detScoreTerm d = c := by
    unfold detScoreTerm detSpecies
    rw [hs, hcd]
    simp only [Option.getD_some]
    rw [show SPECIES_RISK "Mastomys natalensis" = 1 from rfl, one_mul]
  have hmd : isMastomys d = true := by
    unfold isMastomys
    rw [hs]
    simp only [Option.getD_some]
    rw [mast_nat_contains]
    simp
  have hfilt : (ds ++ [d]).filter isValidDet = ds.filter isValidDet ++ [d] := by
    rw [List.filter_append]
    simp [hvd]
  cases hV : ds.filter isValidDet with
  | nil =>
    have h0 : score_detections ds = 0 := by
      rw [score_detections_eq]
      split_ifs with h1 h2
      · rfl
      · rfl
      · exfalso
        rw [hV] at h2
        simp at h2
    rw [h0]
    exact score_nonneg _
  | cons v vs =>
    have hVne : ds.filter isValidDet ≠ [] := by
      rw [hV]
      simp
    have hVne' : (ds ++ [d]).filter isValidDet ≠ [] := by
      rw [hfilt]
      simp
    rw [score_eq_of_valid_ne_nil ds hVne, score_eq_of_valid_ne_nil _ hVne']
    rw [hfilt, List.map_append, List.sum_append, List.filter_append, List.any_append,
      List.length_append]
    simp only [List.map_cons, List.map_nil, List.sum_cons, List.sum_nil, add_zero,
      List.length_singleton, List.any_cons, List.any_nil, Bool.or_false, hterm, hmd,
      Bool.or_true]
    have hvmem : ∀ x ∈ ds.filter isValidDet, isValidDet x = true :=
      fun x hx => (List.mem_filter.mp hx).2
    have hbmem : ∀ x ∈ ds.filter isValidDet, dconf x ≤ 1 :=
      fun x hx => hconf x (List.mem_filter.mp hx).1
    apply pyRound4_mono
    apply inner_mono
    · rw [hV]
      simp
    · exact hn3
    · exact sum_terms_nonneg _ hvmem
    · exact sum_le_len _ hvmem hbmem
    · exact sum_hc_bound _ hvmem hbmem
    · exact fun hp => sum_nomast _ hp hvmem hbmem
    · exact hc
    · rw [List.length_append]
      exact Nat.le_add_right _ _

theorem dMast06_valid : isValidDet dMast06 = true := by
  norm_num [isValidDet, dconf, dMast06]

theorem dMast06_term : detScoreTerm dMast06 = 3/5 := by
  norm_num [detScoreTerm, dMast06, detSpecies, show SPECIES_RISK "Mastomys natalensis" = 1 from rfl]

theorem dMast06_mast : isMastomys dMast06 = true := by
  simp [isMastomys, dMast06, mast_nat_contains]

theorem dMast06_hc : isHighConf dMast06 = false := by
  norm_num [isHighConf, dconf, dMast06]

theorem dMast05_valid : isValidDet dMast05 = true := by
  norm_num [isValidDet, dconf, dMast05]

theorem dMast05_term : detScoreTerm dMast05 = 1/2 := by
  norm_num [detScoreTerm, dMast05, detSpecies, show SPECIES_RISK "Mastomys natalensis" = 1 from rfl]

theorem dMast05_mast : isMastomys dMast05 = true := by
  simp [isMastomys, dMast05, mast_nat_contains]

theorem dMast05_hc : isHighConf dMast05 = false := by
  norm_num [isHighConf, dconf, dMast05]

/-- C6 counterexample: on four valid Mastomys natalensis detections of
confidence 0.6 (score 0.87), adding one more Mastomys natalensis detection
with confidence 0.5 lowers the score to 0.851. -/
theorem C6_monotonicity_cex :
    score_detections ([dMast06, dMast06, dMast06, dMast06] ++ [dMast05]) <
      score_detections [dMast06, dMast06, dMast06, dMast06] := by
  have h4 : score_detections [dMast06, dMast06, dMast06, dMast06] = pyRound4 (87/100) := by
    norm_num [score_detections, dMast06_valid, dMast06_term, dMast06_mast, dMast06_hc,
      cmult, countMultipliers, min_def]
  have h5 : score_detections ([dMast06, dMast06, dMast06, dMast06] ++ [dMast05]) =
      pyRound4 (851/1000) := by
    norm_num [score_detections, dMast06_valid, dMast06_term, dMast06_mast, dMast06_hc,
      dMast05_valid, dMast05_term, dMast05_mast, dMast05_hc,
      cmult, countMultipliers, min_def]
  rw [h4, h5, pyRound4_eqc (87/100) 8700 (by norm_num),
    pyRound4_eqc (851/1000) 8510 (by norm_num)]
  norm_num

/-- Witness for C6 at a concrete one-detection set. -/
theorem C6_bounded_monotonicity_witness :
    score_detections [dMast06] ≤ score_detections ([dMast06] ++ [dMast05]) := by
  apply C6_bounded_monotonicity [dMast06] dMast05 (1/2)
  · simp
  · intro x hx
    simp only [List.mem_singleton] at hx
    rw [hx]
    norm_num [dconf, dMast06]
  · simp [dMast06_valid]
  · rfl
  · rfl
  · norm_num

end Skyhawk
